import Mathlib

/-!
# Verification of the chad-core autonomy / approval control plane

Shallow embedding of the risk-scoring and autonomy-level decision engine
(`chad_agents/policies/autonomy.py`, `chad_agents/policies/policy_guard.py`),
the approval endpoints (`apps/core_api/routers/approvals.py`) and the webhook
notifier (`chad_notifications/webhooks.py`), together with theorems settling
the specification claims about them.

Python floats are modelled as exact rationals (`ℚ`); all risk constants in the
source are decimal literals, so the idealisation is faithful for the claims
proved here.  Redis is modelled as a partial map from keys to a stored record
paired with its remaining time-to-live.
-/

namespace ChadCore

/-! ## String helpers

The Python source classifies tool names and scopes with `in` (substring
membership), `startswith` and `endswith` on strings.  We embed these as
executable Boolean functions on `List Char`. -/

/-- `startsL s p` holds when the character list `p` is a leading segment of `s`
(Python `s.startswith(p)`). -/
def startsL : List Char → List Char → Bool
  | _, [] => true
  | [], _ :: _ => false
  | c :: cs, p :: ps => c == p && startsL cs ps

/-- `hasSubL p s` holds when `p` occurs contiguously inside `s`
(Python `p in s`). -/
def hasSubL (pat : List Char) : List Char → Bool
  | [] => pat.isEmpty
  | c :: cs => startsL (c :: cs) pat || hasSubL pat cs

/-- Python `pat in s`. -/
def strContains (s pat : String) : Bool := hasSubL pat.data s.data

/-- Python `s.startswith(pat)`. -/
def strStarts (s pat : String) : Bool := startsL s.data pat.data

/-- Python `s.endswith(pat)`. -/
def strEnds (s pat : String) : Bool := startsL s.data.reverse pat.data.reverse

/-- Python `s.lower()`, character-wise over the string's character list. -/
def strLower (s : String) : String := ⟨s.data.map Char.toLower⟩

/-- Python `s[:-1]` — the string without its final character. -/
def dropLastChar (s : String) : String := ⟨s.data.dropLast⟩

/-! ## `chad_agents/policies/autonomy.py` -/

/-- `AutonomyLevel` enum (autonomy.py lines 16-48). -/
inductive AutonomyLevel where
  | L0_Ask
  | L1_Draft
  | L2_ExecuteNotify
  | L3_ExecuteSilent
deriving DecidableEq, Repr

/-- `User` model (policy_guard.py lines 47-51). -/
structure User where
  user_id : String
  scopes : List String
deriving DecidableEq, Repr

/-- `calculate_tool_risk` (autonomy.py lines 56-112): keyword classification of
the lower-cased tool name, then capability overrides, then a `min` with 1.0. -/
def calculate_tool_risk (tool_name : String) (capabilities : List String) : ℚ :=
  let tool_lower := strLower tool_name
  let risk : ℚ :=
    if ["delete", "remove", "drop", "destroy", "reset"].any
        (fun kw => strContains tool_lower kw) then 0.7
    else if ["admin", "configure", "setup", "migrate"].any
        (fun kw => strContains tool_lower kw) then 0.9
    else if ["create", "update", "write", "send", "post", "put"].any
        (fun kw => strContains tool_lower kw) then 0.3
    else if ["read", "get", "fetch", "search", "list", "query"].any
        (fun kw => strContains tool_lower kw) then 0.1
    else if strStarts tool_lower "local." then 0.05
    else 0.2
  let risk : ℚ :=
    if capabilities.contains "admin" then max risk 0.9
    else if capabilities.contains "delete" then max risk 0.7
    else if capabilities.contains "write" then max risk 0.3
    else if capabilities.contains "read" then max risk 0.1
    else risk
  min risk 1.0

/-- Per-scope contribution of `calculate_scope_risk` (autonomy.py lines
146-167).  Note the branch order: the `local.` check comes before the
`github.`/`notion.`/`google.` and read-marker checks. -/
def scopeRiskContribA (scope : String) : ℚ :=
  if scope == "*" || strStarts scope "admin." then 0.8
  else if strContains scope ".write" || strContains scope ":write" then 0.4
  else if strStarts scope "local." then 0.05
  else if strStarts scope "github." then 0.3
  else if strStarts scope "notion." || strStarts scope "google." then 0.2
  else if strContains scope ".read" || strContains scope ":read" then 0.1
  else 0.15

/-- `calculate_scope_risk` (autonomy.py lines 120-170): sum of per-scope
contributions, clamped above by 1.0. -/
def calculate_scope_risk (scopes : List String) : ℚ :=
  min (scopes.foldl (fun risk scope => risk + scopeRiskContribA scope) 0) 1.0

/-- `get_user_trust_level` (autonomy.py lines 178-230), on the typed `User`
model (the dynamic duck-typing branch for non-`User` inputs is unreachable in
the typed embedding). -/
def get_user_trust_level (user : User) : ℚ :=
  if user.scopes.contains "*" then 1.0
  else if 3 ≤ (user.scopes.filter
      (fun s => strEnds s ".*" || strEnds s ":*")).length then 0.8
  else if 5 ≤ user.scopes.length then 0.7
  else if 3 ≤ user.scopes.length then 0.5
  else if 1 ≤ user.scopes.length then 0.3
  else 0.0

/-- `requires_plan_approval` (autonomy.py lines 281-295). -/
def requires_plan_approval (autonomy_level : AutonomyLevel) : Bool :=
  autonomy_level == AutonomyLevel.L0_Ask || autonomy_level == AutonomyLevel.L1_Draft

/-! ## `chad_agents/policies/scopes.py` (not present in the sources)

`policy_guard.py` imports `check_scopes` and `scope_matches` from
`chad_agents.policies.scopes`, a module that is absent from the repository
snapshot; only its callers are available.  The two functions are modelled from
the specification. -/

/-- Modelled from the spec: `scope_matches` of the missing module
`chad_agents.policies.scopes`.  "a required scope is satisfied if the
principal holds it exactly, holds a wildcard ancestor (`svc.*` satisfies
`svc.write`), or holds the global wildcard `*`". -/
def scope_matches (required granted : String) : Bool :=
  granted == "*" || granted == required ||
    (strEnds granted ".*" && strStarts required (dropLastChar granted))

/-- Modelled from the spec: `check_scopes` of the missing module
`chad_agents.policies.scopes` — every required scope is satisfied by some
granted scope under `scope_matches`. -/
def check_scopes (required_scopes user_scopes : List String) : Bool :=
  required_scopes.all (fun r => user_scopes.any (fun g => scope_matches r g))

/-! ## `chad_agents/policies/policy_guard.py` -/

/-- One entry of `ExecutionPlan.steps` — `{"tool": tool, "input": {}}`
(policy_guard.py line 380); only the tool name is populated. -/
structure Step where
  tool : String
deriving DecidableEq, Repr

/-- `ExecutionPlan` (policy_guard.py lines 27-32). -/
structure ExecutionPlan where
  steps : List Step
  tools_used : List String
  required_scopes : List String
deriving DecidableEq, Repr

/-- `PolicyValidationResult` (policy_guard.py lines 35-44). -/
structure PolicyValidationResult where
  allowed : Bool
  autonomy_level : AutonomyLevel
  risk_score : ℚ
  requires_approval : Bool
  required_scopes : List String
  missing_scopes : List String
  reason : Option String
deriving DecidableEq, Repr

/-- `ActRequest` (policy_guard.py lines 54-60); the `context` map plays no
role in any of the validated code paths and is elided. -/
structure ActRequest where
  actor : String
  goal : String
  dry_run : Bool
deriving DecidableEq, Repr

/-- The `PolicyGuard` state: the three risk thresholds loaded in `__init__`
(policy_guard.py lines 92-104). -/
structure PolicyGuard where
  risk_threshold_l3 : ℚ
  risk_threshold_l2 : ℚ
  risk_threshold_l1 : ℚ
deriving DecidableEq, Repr

/-- Modelled from the spec: `chad_config.settings.Settings` is absent from the
repository snapshot, so the thresholds are taken as the `getattr` fallback
defaults hard-coded in `PolicyGuard.__init__` (0.3, 0.6, 0.8), which the spec
also names as the defaults. -/
def defaultGuard : PolicyGuard := ⟨0.3, 0.6, 0.8⟩

/-- `PolicyGuard.determine_autonomy_level` (policy_guard.py lines 164-204). -/
def determine_autonomy_level (g : PolicyGuard) (request : ActRequest)
    (user : User) (risk_score : ℚ) : AutonomyLevel :=
  if user.scopes.contains "*" ∧ risk_score < g.risk_threshold_l1 then
    AutonomyLevel.L3_ExecuteSilent
  else if request.dry_run then
    AutonomyLevel.L2_ExecuteNotify
  else if risk_score < g.risk_threshold_l3 then
    AutonomyLevel.L3_ExecuteSilent
  else if risk_score < g.risk_threshold_l2 then
    AutonomyLevel.L2_ExecuteNotify
  else if risk_score < g.risk_threshold_l1 then
    AutonomyLevel.L1_Draft
  else
    AutonomyLevel.L0_Ask

/-- `PolicyGuard.requires_approval` (policy_guard.py lines 269-291).  The
`risk_score` argument is accepted but unused, as in the source. -/
def requires_approval (autonomy_level : AutonomyLevel) (risk_score : ℚ) : Bool :=
  autonomy_level == AutonomyLevel.L0_Ask || autonomy_level == AutonomyLevel.L1_Draft

/-- Per-scope contribution of `PolicyGuard._calculate_scope_risk`
(policy_guard.py lines 404-418).  Note the branch order: here the `local.`
check comes last, after the `github.`/`notion.`/`google.` and read-marker
checks. -/
def scopeRiskContribG (scope : String) : ℚ :=
  if scope == "*" || strStarts scope "admin." then 0.8
  else if strContains scope ".write" || strContains scope ":write" then 0.4
  else if strStarts scope "github." then 0.3
  else if strStarts scope "notion." || strStarts scope "google." then 0.2
  else if strContains scope ".read" || strContains scope ":read" then 0.1
  else if strStarts scope "local." then 0.05
  else 0.15

/-- `PolicyGuard._calculate_scope_risk` (policy_guard.py lines 385-420). -/
def guard_calculate_scope_risk (scopes : List String) : ℚ :=
  min (scopes.foldl (fun risk scope => risk + scopeRiskContribG scope) 0) 1.0

/-- `PolicyGuard._scope_matches_any` (policy_guard.py lines 422-426). -/
def scope_matches_any (required : String) (granted_scopes : List String) : Bool :=
  granted_scopes.any (fun granted => scope_matches required granted)

/-- `PolicyGuard._extract_required_scopes` (policy_guard.py lines 297-344).
The final `list(set(required))` deduplication is modelled as the identity:
the entries appended are pairwise distinct by construction, so the Python set
round-trip can only permute them (in an order CPython leaves unspecified). -/
def extract_required_scopes (request : ActRequest) : List String :=
  let goal_lower := strLower request.goal
  let required : List String := []
  let required := required ++
    (if strContains goal_lower "notion" then
      [if ["create", "update", "write", "add"].any
          (fun kw => strContains goal_lower kw) then "notion.write"
       else "notion.read"]
     else [])
  let required := required ++
    (if strContains goal_lower "github" || strContains goal_lower "git" then
      [if ["create", "update", "push", "commit", "issue"].any
          (fun kw => strContains goal_lower kw) then "github.write"
       else "github.read"]
     else [])
  let required := required ++
    (if strContains goal_lower "google" || strContains goal_lower "gmail" ||
        strContains goal_lower "drive" then
      [if ["send", "create", "update", "write"].any
          (fun kw => strContains goal_lower kw) then "google.write"
       else "google.read"]
     else [])
  let required := required ++
    (if strContains goal_lower "summarize" || strContains goal_lower "analyze" then
      ["local.summarize"]
     else [])
  if required.isEmpty then ["local.read"] else required

/-- `PolicyGuard._create_execution_plan` (policy_guard.py lines 346-383). -/
def create_execution_plan (request : ActRequest) : ExecutionPlan :=
  let goal_lower := strLower request.goal
  let tools : List String :=
    (if strContains goal_lower "github" then ["adapters_github.search_issues"] else []) ++
    (if strContains goal_lower "notion" then ["adapters_notion.create_page"] else []) ++
    (if strContains goal_lower "summarize" then ["local.summarize_text"] else []) ++
    (if strContains goal_lower "google" || strContains goal_lower "gmail" then
      ["adapters_google.send_email"] else [])
  let tools := if tools.isEmpty then ["local.process"] else tools
  ⟨tools.map (fun t => ⟨t⟩), tools, extract_required_scopes request⟩

/-- `PolicyGuard.assess_risk_score` (policy_guard.py lines 223-267): summed
tool risk, plus scope risk, scaled by the trust modifier, plus a complexity
surcharge, clamped to [0, 1]. -/
def assess_risk_score (plan : ExecutionPlan) (user : User) : ℚ :=
  let risk := plan.tools_used.foldl
    (fun risk tool => risk + calculate_tool_risk tool []) 0
  let risk := risk + guard_calculate_scope_risk plan.required_scopes
  let trust_modifier := get_user_trust_level user
  let risk := risk * (1 - trust_modifier * 0.2)
  let risk :=
    if 1 < plan.steps.length then
      risk + min (((plan.steps.length : ℚ) - 1) * 0.1) 0.3
    else risk
  max (min risk 1.0) 0.0

/-- `PolicyGuard.validate_request` (policy_guard.py lines 106-162),
parameterised by the risk-assessment function it calls on the allow path, so
that independence of the denial result from any computed risk is
expressible. -/
def validate_request_with (assess : ExecutionPlan → User → ℚ)
    (g : PolicyGuard) (request : ActRequest) (user : User) :
    PolicyValidationResult :=
  let required_scopes := extract_required_scopes request
  let has_permissions := check_scopes required_scopes user.scopes
  let missing_scopes := required_scopes.filter
    (fun scope => !(scope_matches_any scope user.scopes))
  if !has_permissions then
    ⟨false, AutonomyLevel.L0_Ask, 1.0, true, required_scopes, missing_scopes,
      some ("Missing required scopes: " ++ String.intercalate ", " missing_scopes)⟩
  else
    let plan := create_execution_plan request
    let risk_score := assess plan user
    let autonomy_level := determine_autonomy_level g request user risk_score
    let needs_approval := requires_approval autonomy_level risk_score
    ⟨true, autonomy_level, risk_score, needs_approval, required_scopes, [], none⟩

/-- `PolicyGuard.validate_request` with its actual risk assessment. -/
def validate_request (g : PolicyGuard) (request : ActRequest) (user : User) :
    PolicyValidationResult :=
  validate_request_with assess_risk_score g request user

/-! ## `apps/core_api/routers/approvals.py`

Redis is modelled as a partial map from keys to a stored approval record
paired with its remaining time-to-live (`redis.ttl`, an integer).  The JSON
payload stored under `approval:{run_id}` is modelled by `ApprovalData`. -/

/-- The JSON value stored under `approval:{run_id}` (approvals.py lines
409-419, mutated in lines 184-188 and 274-278). -/
structure ApprovalData where
  run_id : String
  actor : String
  goal : String
  status : String
  autonomy_level : String
  risk_score : ℚ
  required_scopes : List String
  created_at : String
  expires_at : String
  approved_by : Option String
  approved_at : Option String
  rejected_by : Option String
  rejected_at : Option String
  reason : Option String
deriving DecidableEq, Repr

/-- The Redis key space: each key holds a record and its remaining TTL in
seconds. -/
def Store := String → Option (ApprovalData × ℤ)

/-- The two error outcomes of the approve/reject endpoints. -/
inductive ApprovalError where
  | notFound
  | alreadyDecided
deriving DecidableEq, Repr

/-- The HTTP status code each `HTTPException` carries (approvals.py lines
170-173 and 179-182). -/
def httpStatus : ApprovalError → ℕ
  | ApprovalError.notFound => 404
  | ApprovalError.alreadyDecided => 400

/-- `ApprovalResponse` (approvals.py lines 45-54). -/
structure ApprovalResponse where
  run_id : String
  status : String
  approved_at : Option String
  approved_by : Option String
  rejected_at : Option String
  rejected_by : Option String
  reason : Option String
deriving DecidableEq, Repr

/-- `approve_run` (approvals.py lines 134-221).  Returns the outcome and the
resulting store; the error paths raise before any write, so they return the
store unchanged.  `now` stands for `datetime.now(timezone.utc).isoformat()`. -/
def approve_run (store : Store) (run_id : String) (reqReason : Option String)
    (userId : String) (now : String) :
    Except ApprovalError ApprovalResponse × Store :=
  let key := "approval:" ++ run_id
  match store key with
  | none => (Except.error ApprovalError.notFound, store)
  | some (d, _) =>
    if d.status ≠ "pending" then (Except.error ApprovalError.alreadyDecided, store)
    else
      let d2 : ApprovalData :=
        ⟨d.run_id, d.actor, d.goal, "approved", d.autonomy_level, d.risk_score,
          d.required_scopes, d.created_at, d.expires_at,
          some userId, some now, d.rejected_by, d.rejected_at, reqReason⟩
      let ttl := match store key with
        | some (_, t) => t
        | none => -2
      let store2 : Store := fun k =>
        if k = key then some (d2, max ttl 3600) else store k
      (Except.ok ⟨run_id, "approved", d2.approved_at, d2.approved_by,
          none, none, d2.reason⟩,
        store2)

/-- `reject_run` (approvals.py lines 224-311); mirror image of
`approve_run`. -/
def reject_run (store : Store) (run_id : String) (reqReason : Option String)
    (userId : String) (now : String) :
    Except ApprovalError ApprovalResponse × Store :=
  let key := "approval:" ++ run_id
  match store key with
  | none => (Except.error ApprovalError.notFound, store)
  | some (d, _) =>
    if d.status ≠ "pending" then (Except.error ApprovalError.alreadyDecided, store)
    else
      let d2 : ApprovalData :=
        ⟨d.run_id, d.actor, d.goal, "rejected", d.autonomy_level, d.risk_score,
          d.required_scopes, d.created_at, d.expires_at,
          d.approved_by, d.approved_at, some userId, some now, reqReason⟩
      let ttl := match store key with
        | some (_, t) => t
        | none => -2
      let store2 : Store := fun k =>
        if k = key then some (d2, max ttl 3600) else store k
      (Except.ok ⟨run_id, "rejected", none, none,
          d2.rejected_at, d2.rejected_by, d2.reason⟩,
        store2)

/-! ## `chad_notifications/webhooks.py` -/

/-- The outcome of one HTTP POST attempt: a response with a status code, or
one of the three caught exception classes (`httpx.TimeoutException`,
`httpx.RequestError`, any other `Exception`). -/
inductive HttpOutcome where
  | response (status_code : ℕ)
  | timeout
  | requestError
  | otherError
deriving DecidableEq, Repr

/-- The 2xx success test of `_send_webhook` (webhooks.py line 162):
`response.status_code >= 200 and response.status_code < 300`; the three
exception branches fall through to the retry logic. -/
def isSuccessOutcome : HttpOutcome → Bool
  | HttpOutcome.response c => 200 ≤ c && c < 300
  | _ => false

/-- Observable trace of one `_send_webhook` call: its Boolean return value,
how many attempts were performed, and the successive `asyncio.sleep` delays
in seconds. -/
structure SendTrace where
  success : Bool
  attempts : ℕ
  delays : List ℕ
deriving DecidableEq, Repr

/-- The `for attempt in range(self.max_retries)` loop of `_send_webhook`
(webhooks.py lines 148-233), from loop index `attempt` on, with `remaining`
loop indices left to run (`remaining = max_retries - attempt` at every call);
the transport is modelled by `responses`, giving the outcome of the POST at
each loop index.  `attempts` and `delays` count from index `attempt`
onwards; a delay of `backoff_base ^ attempt` seconds is slept after a failed
attempt exactly when `attempt < max_retries - 1` (webhooks.py lines
213-223). -/
def sendLoop (max_retries backoff_base : ℕ) (responses : ℕ → HttpOutcome) :
    ℕ → ℕ → SendTrace
  | _, 0 => ⟨false, 0, []⟩
  | attempt, remaining + 1 =>
    if isSuccessOutcome (responses attempt) then ⟨true, 1, []⟩
    else
      let rest := sendLoop max_retries backoff_base responses (attempt + 1) remaining
      if attempt < max_retries - 1 then
        ⟨rest.success, rest.attempts + 1, backoff_base ^ attempt :: rest.delays⟩
      else
        ⟨rest.success, rest.attempts + 1, rest.delays⟩

/-- `WebhookNotifier._send_webhook` (webhooks.py lines 134-233): the loop
started at attempt index 0 with `max_retries` indices to run. -/
def send_webhook (max_retries backoff_base : ℕ) (responses : ℕ → HttpOutcome) :
    SendTrace :=
  sendLoop max_retries backoff_base responses 0 max_retries

/-! ## Helper lemmas -/

/-- Folding addition of a mapped value is the starting value plus the sum of
the mapped list. -/
theorem foldl_add_eq_add_sum (f : String → ℚ) (l : List String) (a : ℚ) :
    List.foldl (fun risk scope => risk + f scope) a l = a + (l.map f).sum := by
  induction l generalizing a with
  | nil => simp
  | cons x xs ih => simp [List.foldl_cons, ih, add_assoc]

/-- A list whose `startsL` check against `c :: ps` succeeds begins with `c`. -/
theorem startsL_cons_split {s : List Char} {c : Char} {ps : List Char}
    (h : startsL s (c :: ps) = true) : ∃ t, s = c :: t := by
  cases s with
  | nil => simp [startsL] at h
  | cons c' t =>
    refine ⟨t, ?_⟩
    simp only [startsL, Bool.and_eq_true, beq_iff_eq] at h
    rw [h.1]

/-- Two `startsL` checks with different first characters cannot both
succeed. -/
theorem startsL_false_of_first_ne {s : List Char} {c d : Char} {cs ds : List Char}
    (h : startsL s (c :: cs) = true) (hne : c ≠ d) :
    startsL s (d :: ds) = false := by
  obtain ⟨t, ht⟩ := startsL_cons_split h
  subst ht
  simp [startsL, hne]

/-- `assess_risk_score` always lands in [0, 1]: the final clamp
`max (min · 1.0) 0.0` guarantees it regardless of the accumulated value. -/
theorem assess_risk_score_bounds (plan : ExecutionPlan) (user : User) :
    0 ≤ assess_risk_score plan user ∧ assess_risk_score plan user ≤ 1 := by
  unfold assess_risk_score
  constructor
  · exact le_trans (by norm_num) (le_max_right _ _)
  · exact max_le (le_trans (min_le_right _ _) (by norm_num)) (by norm_num)

/-- `check_scopes` is false exactly when some required scope fails
`scope_matches_any`. -/
theorem check_scopes_eq_false_iff (required user_scopes : List String) :
    check_scopes required user_scopes = false ↔
      ∃ s ∈ required, scope_matches_any s user_scopes = false := by
  constructor
  · intro h
    by_contra hno
    push_neg at hno
    have hall : check_scopes required user_scopes = true := by
      refine List.all_eq_true.mpr (fun s hs => ?_)
      have := hno s hs
      simpa [scope_matches_any, Bool.not_eq_false] using this
    rw [hall] at h
    cases h
  · rintro ⟨s, hs, hf⟩
    cases hc : check_scopes required user_scopes
    · rfl
    · exfalso
      have := List.all_eq_true.mp hc s hs
      rw [show (user_scopes.any fun g => scope_matches s g) =
        scope_matches_any s user_scopes from rfl] at this
      rw [this] at hf
      cases hf

/-- `requires_approval` by exhaustive case analysis on the autonomy level. -/
theorem requires_approval_cases (level : AutonomyLevel) (risk : ℚ) :
    requires_approval level risk = true ↔
      (level = AutonomyLevel.L0_Ask ∨ level = AutonomyLevel.L1_Draft) := by
  cases level <;> simp [requires_approval]

/-! ## Claim theorems -/

/-- **C4.** For every autonomy level (exhaustively over the four enum values)
and every risk score, `requires_approval` is true iff the level is `L0_Ask` or
`L1_Draft`; the result is a pure function of the level and does not depend on
the risk argument; `requires_plan_approval` (autonomy.py) agrees with it. -/
theorem requires_approval_iff_ask_or_draft (level : AutonomyLevel) (risk risk' : ℚ) :
    requires_approval level risk = requires_approval level risk' ∧
    (requires_approval level risk = true ↔
      (level = AutonomyLevel.L0_Ask ∨ level = AutonomyLevel.L1_Draft)) ∧
    requires_plan_approval level = requires_approval level risk := by
  refine ⟨rfl, requires_approval_cases level risk, ?_⟩
  cases level <;> rfl

/-- **C6.** For every tool name, `calculate_tool_risk` with an empty
capability list returns the keyword classification of the lower-cased name,
with precedence destructive (0.7) > admin (0.9) > write (0.3) > read (0.1) >
`local.` (0.05) > default (0.2); in particular the two concrete values the
spec quotes. -/
theorem calculate_tool_risk_classification (name : String) :
    (["delete", "remove", "drop", "destroy", "reset"].any
        (fun kw => strContains (strLower name) kw) = true →
      calculate_tool_risk name [] = 0.7) ∧
    (["delete", "remove", "drop", "destroy", "reset"].any
        (fun kw => strContains (strLower name) kw) = false →
      ["admin", "configure", "setup", "migrate"].any
        (fun kw => strContains (strLower name) kw) = true →
      calculate_tool_risk name [] = 0.9) ∧
    (["delete", "remove", "drop", "destroy", "reset"].any
        (fun kw => strContains (strLower name) kw) = false →
      ["admin", "configure", "setup", "migrate"].any
        (fun kw => strContains (strLower name) kw) = false →
      ["create", "update", "write", "send", "post", "put"].any
        (fun kw => strContains (strLower name) kw) = true →
      calculate_tool_risk name [] = 0.3) ∧
    (["delete", "remove", "drop", "destroy", "reset"].any
        (fun kw => strContains (strLower name) kw) = false →
      ["admin", "configure", "setup", "migrate"].any
        (fun kw => strContains (strLower name) kw) = false →
      ["create", "update", "write", "send", "post", "put"].any
        (fun kw => strContains (strLower name) kw) = false →
      ["read", "get", "fetch", "search", "list", "query"].any
        (fun kw => strContains (strLower name) kw) = true →
      calculate_tool_risk name [] = 0.1) ∧
    (["delete", "remove", "drop", "destroy", "reset"].any
        (fun kw => strContains (strLower name) kw) = false →
      ["admin", "configure", "setup", "migrate"].any
        (fun kw => strContains (strLower name) kw) = false →
      ["create", "update", "write", "send", "post", "put"].any
        (fun kw => strContains (strLower name) kw) = false →
      ["read", "get", "fetch", "search", "list", "query"].any
        (fun kw => strContains (strLower name) kw) = false →
      strStarts (strLower name) "local." = true →
      calculate_tool_risk name [] = 0.05) ∧
    (["delete", "remove", "drop", "destroy", "reset"].any
        (fun kw => strContains (strLower name) kw) = false →
      ["admin", "configure", "setup", "migrate"].any
        (fun kw => strContains (strLower name) kw) = false →
      ["create", "update", "write", "send", "post", "put"].any
        (fun kw => strContains (strLower name) kw) = false →
      ["read", "get", "fetch", "search", "list", "query"].any
        (fun kw => strContains (strLower name) kw) = false →
      strStarts (strLower name) "local." = false →
      calculate_tool_risk name [] = 0.2) ∧
    calculate_tool_risk "adapters_github.delete_issue" [] = 0.7 ∧
    calculate_tool_risk "local.summarize_text" [] = 0.05 := by
  refine ⟨?_, ?_, ?_, ?_, ?_, ?_, ?_, ?_⟩
  · intro h1
    simp only [calculate_tool_risk, h1]
    norm_num [List.contains]
  · intro h1 h2
    simp only [calculate_tool_risk, h1, h2]
    norm_num [List.contains]
  · intro h1 h2 h3
    simp only [calculate_tool_risk, h1, h2, h3]
    norm_num [List.contains]
  · intro h1 h2 h3 h4
    simp only [calculate_tool_risk, h1, h2, h3, h4]
    norm_num [List.contains]
  · intro h1 h2 h3 h4 h5
    simp only [calculate_tool_risk, h1, h2, h3, h4, h5]
    norm_num [List.contains]
  · intro h1 h2 h3 h4 h5
    simp only [calculate_tool_risk, h1, h2, h3, h4, h5]
    norm_num [List.contains]
  · set_option maxHeartbeats 1000000 in
    norm_num +decide [calculate_tool_risk, strContains, strLower, strStarts,
      hasSubL, startsL]
  · set_option maxHeartbeats 1000000 in
    norm_num +decide [calculate_tool_risk, strContains, strLower, strStarts,
      hasSubL, startsL]

/-- Witness for C6 at a concrete destructive tool name. -/
theorem calculate_tool_risk_classification_witness :
    calculate_tool_risk "adapters_github.delete_issue" [] = 0.7 :=
  (calculate_tool_risk_classification "adapters_github.delete_issue").1 (by decide)

/-- On scopes that do not start with `local.` while carrying a read marker
and no write marker, the two per-scope classifications agree; everywhere the
branch orders of autonomy.py and policy_guard.py give the same answer. -/
theorem scopeRiskContribA_eq_contribG (s : String)
    (h : strStarts s "local." = true →
      (strContains s ".read" || strContains s ":read") = true →
      (strContains s ".write" || strContains s ":write") = true) :
    scopeRiskContribA s = scopeRiskContribG s := by
  cases h1 : (s == "*" || strStarts s "admin.") with
  | true => simp [scopeRiskContribA, scopeRiskContribG, h1]
  | false =>
    cases h2 : (strContains s ".write" || strContains s ":write") with
    | true => simp [scopeRiskContribA, scopeRiskContribG, h1, h2]
    | false =>
      cases hl : strStarts s "local." with
      | false => simp [scopeRiskContribA, scopeRiskContribG, h1, h2, hl]
      | true =>
        have hr : (strContains s ".read" || strContains s ":read") = false := by
          cases hr : (strContains s ".read" || strContains s ":read")
          · rfl
          · rw [h hl hr] at h2; cases h2
        have hl' : startsL s.data ('l' :: ['o', 'c', 'a', 'l', '.']) = true := hl
        have hg : strStarts s "github." = false :=
          startsL_false_of_first_ne hl' (by decide)
        have hn : strStarts s "notion." = false :=
          startsL_false_of_first_ne hl' (by decide)
        have hgo : strStarts s "google." = false :=
          startsL_false_of_first_ne hl' (by decide)
        simp [scopeRiskContribA, scopeRiskContribG, h1, h2, hl, hr, hg, hn, hgo]

/-- **C7 counterexample.** The claimed precedence places the read-marker case
(0.1) before the `local.` case (0.05), which would give
`calculate_scope_risk(["local.read"]) = 0.1`; autonomy.py checks `local.`
first and yields 0.05. -/
theorem calculate_scope_risk_local_read_cex :
    calculate_scope_risk ["local.read"] = 0.05 ∧ (0.05 : ℚ) ≠ (0.1 : ℚ) := by
  constructor
  · norm_num +decide [calculate_scope_risk, scopeRiskContribA, strContains,
      strStarts, hasSubL, startsL]
  · norm_num

/-- **C7 (amended).** `calculate_scope_risk` is the clamped sum of per-scope
contributions, where the contribution is classified with precedence
global/`admin.` (0.8) > write marker (0.4) > `local.` (0.05) > `github.`
(0.3) > `notion.`/`google.` (0.2) > read marker (0.1) > default (0.15) —
i.e. with `local.` checked before the service and read cases — with the
total clamped to at most 1.0, and the spec's concrete examples hold. -/
theorem calculate_scope_risk_classification :
    (∀ scopes : List String,
      calculate_scope_risk scopes = min ((scopes.map scopeRiskContribA).sum) 1.0 ∧
      calculate_scope_risk scopes ≤ 1) ∧
    (∀ s : String,
      ((s == "*" || strStarts s "admin.") = true → scopeRiskContribA s = 0.8) ∧
      ((s == "*" || strStarts s "admin.") = false →
        (strContains s ".write" || strContains s ":write") = true →
        scopeRiskContribA s = 0.4) ∧
      ((s == "*" || strStarts s "admin.") = false →
        (strContains s ".write" || strContains s ":write") = false →
        strStarts s "local." = true → scopeRiskContribA s = 0.05) ∧
      ((s == "*" || strStarts s "admin.") = false →
        (strContains s ".write" || strContains s ":write") = false →
        strStarts s "local." = false →
        strStarts s "github." = true → scopeRiskContribA s = 0.3) ∧
      ((s == "*" || strStarts s "admin.") = false →
        (strContains s ".write" || strContains s ":write") = false →
        strStarts s "local." = false →
        strStarts s "github." = false →
        (strStarts s "notion." || strStarts s "google.") = true →
        scopeRiskContribA s = 0.2) ∧
      ((s == "*" || strStarts s "admin.") = false →
        (strContains s ".write" || strContains s ":write") = false →
        strStarts s "local." = false →
        strStarts s "github." = false →
        (strStarts s "notion." || strStarts s "google.") = false →
        (strContains s ".read" || strContains s ":read") = true →
        scopeRiskContribA s = 0.1) ∧
      ((s == "*" || strStarts s "admin.") = false →
        (strContains s ".write" || strContains s ":write") = false →
        strStarts s "local." = false →
        strStarts s "github." = false →
        (strStarts s "notion." || strStarts s "google.") = false →
        (strContains s ".read" || strContains s ":read") = false →
        scopeRiskContribA s = 0.15)) ∧
    calculate_scope_risk ["admin.*"] = 0.8 ∧
    calculate_scope_risk ["*"] = 0.8 := by
  refine ⟨fun scopes => ⟨?_, ?_⟩, fun s => ?_, ?_, ?_⟩
  · rw [calculate_scope_risk, foldl_add_eq_add_sum, zero_add]
  · exact le_trans (min_le_right _ _) (by norm_num)
  · refine ⟨?_, ?_, ?_, ?_, ?_, ?_, ?_⟩ <;>
      (intros; simp only [scopeRiskContribA, *]; norm_num)
  · norm_num +decide [calculate_scope_risk, scopeRiskContribA, strContains,
      strStarts, hasSubL, startsL]
  · norm_num +decide [calculate_scope_risk, scopeRiskContribA, strContains,
      strStarts, hasSubL, startsL]

/-- Witness for C7 (amended) at the spec's concrete example. -/
theorem calculate_scope_risk_classification_witness :
    calculate_scope_risk ["admin.*"] = 0.8 :=
  calculate_scope_risk_classification.2.2.1

/-- **C9 counterexample.** The two scope-risk implementations disagree on
`["local.read"]`: autonomy.py gives 0.05 (its `local.` branch comes before
the read-marker branch), policy_guard.py gives 0.1 (its `local.` branch
comes last). -/
theorem scope_risk_impls_differ_cex :
    calculate_scope_risk ["local.read"] ≠ guard_calculate_scope_risk ["local.read"] ∧
    calculate_scope_risk ["local.read"] = 0.05 ∧
    guard_calculate_scope_risk ["local.read"] = 0.1 := by
  refine ⟨?_, ?_, ?_⟩
  · norm_num +decide [calculate_scope_risk, guard_calculate_scope_risk,
      scopeRiskContribA, scopeRiskContribG, strContains, strStarts, hasSubL,
      startsL]
  · norm_num +decide [calculate_scope_risk, scopeRiskContribA, strContains,
      strStarts, hasSubL, startsL]
  · norm_num +decide [guard_calculate_scope_risk, scopeRiskContribG,
      strContains, strStarts, hasSubL, startsL]

/-- **C9 (amended).** The two scope-risk implementations agree on every list
of scopes in which no scope both starts with `local.` and contains a read
marker without a write marker. -/
theorem scope_risk_impls_agree (scopes : List String)
    (h : ∀ s ∈ scopes, strStarts s "local." = true →
      (strContains s ".read" || strContains s ":read") = true →
      (strContains s ".write" || strContains s ":write") = true) :
    calculate_scope_risk scopes = guard_calculate_scope_risk scopes := by
  rw [calculate_scope_risk, guard_calculate_scope_risk,
    foldl_add_eq_add_sum, foldl_add_eq_add_sum]
  have hmap : scopes.map scopeRiskContribA = scopes.map scopeRiskContribG := by
    induction scopes with
    | nil => rfl
    | cons x xs ih =>
      simp only [List.map_cons]
      rw [scopeRiskContribA_eq_contribG x (h x (by simp)),
        ih (fun s hs h1 h2 => h s (by simp [hs]) h1 h2)]
  rw [hmap]

/-- Witness for C9 (amended) at a concrete scope list outside the
disagreement region. -/
theorem scope_risk_impls_agree_witness :
    calculate_scope_risk ["notion.write", "github.read", "admin.*"] =
      guard_calculate_scope_risk ["notion.write", "github.read", "admin.*"] :=
  scope_risk_impls_agree _ (by decide)

/-- **C2.** An approval record leaves `pending` at most once: with no stored
record both endpoints fail `NotFound` (404) and leave the store unchanged;
with a stored record whose status is not `pending` both fail `AlreadyDecided`
(400) and leave the store unchanged; only on a pending record does a decision
set status `approved`/`rejected` together with its decision metadata. -/
theorem approval_decides_pending_exactly_once (store : Store) (run_id : String)
    (reason : Option String) (uid now : String) (d : ApprovalData) (ttl : ℤ) :
    (store ("approval:" ++ run_id) = none →
      approve_run store run_id reason uid now =
        (Except.error ApprovalError.notFound, store) ∧
      reject_run store run_id reason uid now =
        (Except.error ApprovalError.notFound, store)) ∧
    (store ("approval:" ++ run_id) = some (d, ttl) → d.status ≠ "pending" →
      approve_run store run_id reason uid now =
        (Except.error ApprovalError.alreadyDecided, store) ∧
      reject_run store run_id reason uid now =
        (Except.error ApprovalError.alreadyDecided, store)) ∧
    (store ("approval:" ++ run_id) = some (d, ttl) → d.status = "pending" →
      (approve_run store run_id reason uid now).1 =
        Except.ok ⟨run_id, "approved", some now, some uid, none, none, reason⟩ ∧
      (approve_run store run_id reason uid now).2 ("approval:" ++ run_id) =
        some (⟨d.run_id, d.actor, d.goal, "approved", d.autonomy_level,
          d.risk_score, d.required_scopes, d.created_at, d.expires_at,
          some uid, some now, d.rejected_by, d.rejected_at, reason⟩,
          max ttl 3600) ∧
      (reject_run store run_id reason uid now).1 =
        Except.ok ⟨run_id, "rejected", none, none, some now, some uid, reason⟩ ∧
      (reject_run store run_id reason uid now).2 ("approval:" ++ run_id) =
        some (⟨d.run_id, d.actor, d.goal, "rejected", d.autonomy_level,
          d.risk_score, d.required_scopes, d.created_at, d.expires_at,
          d.approved_by, d.approved_at, some uid, some now, reason⟩,
          max ttl 3600)) ∧
    httpStatus ApprovalError.notFound = 404 ∧
    httpStatus ApprovalError.alreadyDecided = 400 := by
  refine ⟨?_, ?_, ?_, rfl, rfl⟩
  · intro hnone
    constructor <;> simp [approve_run, reject_run, hnone]
  · intro hsome hstat
    constructor <;> simp [approve_run, reject_run, hsome, hstat]
  · intro hsome hstat
    refine ⟨?_, ?_, ?_, ?_⟩ <;> simp [approve_run, reject_run, hsome, hstat]

/-- Witness for C2: a concrete pending record is approved with its decision
metadata. -/
theorem approval_decides_pending_exactly_once_witness :
    (approve_run
      (fun k => if k = "approval:r1" then
        some (⟨"r1", "alice", "goal", "pending", "L1_Draft", 0.7, ["notion.write"],
          "t0", "t9", none, none, none, none, none⟩, 100)
       else none)
      "r1" (some "ok") "bob" "t1").1 =
      Except.ok ⟨"r1", "approved", some "t1", some "bob", none, none, some "ok"⟩ :=
  (((approval_decides_pending_exactly_once
    (fun k => if k = "approval:r1" then
      some (⟨"r1", "alice", "goal", "pending", "L1_Draft", 0.7, ["notion.write"],
        "t0", "t9", none, none, none, none, none⟩, 100)
     else none)
    "r1" (some "ok") "bob" "t1"
    ⟨"r1", "alice", "goal", "pending", "L1_Draft", 0.7, ["notion.write"],
      "t0", "t9", none, none, none, none, none⟩ 100).2.2.1 rfl rfl).1)

/-- **C8.** A successful decision on a pending record re-persists it with
expiry `max(remaining TTL, 3600)` seconds, which is at least the remaining
TTL and at least the 1-hour floor. -/
theorem approval_decision_ttl_floor (store : Store) (run_id : String)
    (reason : Option String) (uid now : String) (d : ApprovalData) (ttl : ℤ)
    (hsome : store ("approval:" ++ run_id) = some (d, ttl))
    (hstat : d.status = "pending") :
    ((approve_run store run_id reason uid now).2 ("approval:" ++ run_id)).map
        Prod.snd = some (max ttl 3600) ∧
    ((reject_run store run_id reason uid now).2 ("approval:" ++ run_id)).map
        Prod.snd = some (max ttl 3600) ∧
    (3600 : ℤ) ≤ max ttl 3600 ∧ ttl ≤ max ttl 3600 := by
  refine ⟨?_, ?_, le_max_right _ _, le_max_left _ _⟩ <;>
    simp [approve_run, reject_run, hsome, hstat]

/-- Witness for C8 at a concrete pending record whose remaining TTL is below
the floor. -/
theorem approval_decision_ttl_floor_witness :
    ((approve_run
      (fun k => if k = "approval:r1" then
        some (⟨"r1", "alice", "goal", "pending", "L1_Draft", 0.7, ["notion.write"],
          "t0", "t9", none, none, none, none, none⟩, 100)
       else none)
      "r1" (some "ok") "bob" "t1").2 "approval:r1").map Prod.snd =
      some 3600 := by
  have h := (approval_decision_ttl_floor
    (fun k => if k = "approval:r1" then
      some (⟨"r1", "alice", "goal", "pending", "L1_Draft", 0.7, ["notion.write"],
        "t0", "t9", none, none, none, none, none⟩, 100)
     else none)
    "r1" (some "ok") "bob" "t1"
    ⟨"r1", "alice", "goal", "pending", "L1_Draft", 0.7, ["notion.write"],
      "t0", "t9", none, none, none, none, none⟩ 100 rfl rfl).1
  simpa using h

/-- **C3.** `determine_autonomy_level` precedence at the default thresholds:
global scope with risk below 0.8 gives `L3_ExecuteSilent`; otherwise dry runs
give `L2_ExecuteNotify`; otherwise the three ascending thresholds 0.3 / 0.6 /
0.8 pick `L3` / `L2` / `L1`, with `L0_Ask` at or above 0.8. -/
theorem determine_autonomy_level_precedence (request : ActRequest) (user : User)
    (risk : ℚ) (h0 : 0 ≤ risk) (h1 : risk ≤ 1) :
    (user.scopes.contains "*" = true → risk < 0.8 →
      determine_autonomy_level defaultGuard request user risk =
        AutonomyLevel.L3_ExecuteSilent) ∧
    ((user.scopes.contains "*" = false ∨ (0.8 : ℚ) ≤ risk) →
      request.dry_run = true →
      determine_autonomy_level defaultGuard request user risk =
        AutonomyLevel.L2_ExecuteNotify) ∧
    ((user.scopes.contains "*" = false ∨ (0.8 : ℚ) ≤ risk) →
      request.dry_run = false →
      ((risk < 0.3 →
        determine_autonomy_level defaultGuard request user risk =
          AutonomyLevel.L3_ExecuteSilent) ∧
       ((0.3 : ℚ) ≤ risk → risk < 0.6 →
        determine_autonomy_level defaultGuard request user risk =
          AutonomyLevel.L2_ExecuteNotify) ∧
       ((0.6 : ℚ) ≤ risk → risk < 0.8 →
        determine_autonomy_level defaultGuard request user risk =
          AutonomyLevel.L1_Draft) ∧
       ((0.8 : ℚ) ≤ risk →
        determine_autonomy_level defaultGuard request user risk =
          AutonomyLevel.L0_Ask))) := by
  refine ⟨?_, ?_, ?_⟩
  · intro hc hr
    have hc' : "*" ∈ user.scopes := by simpa using hc
    simp [determine_autonomy_level, defaultGuard, hc', hr]
  · intro hnc hdry
    have hcond : ¬("*" ∈ user.scopes ∧ risk < (0.8 : ℚ)) := by
      rcases hnc with h | h
      · rintro ⟨hc, -⟩; exact absurd hc (by simpa using h)
      · rintro ⟨-, hlt⟩; linarith
    simp [determine_autonomy_level, defaultGuard, hcond, hdry]
  · intro hnc hdry
    have hcond : ¬("*" ∈ user.scopes ∧ risk < (0.8 : ℚ)) := by
      rcases hnc with h | h
      · rintro ⟨hc, -⟩; exact absurd hc (by simpa using h)
      · rintro ⟨-, hlt⟩; linarith
    refine ⟨?_, ?_, ?_, ?_⟩
    · intro h3
      simp [determine_autonomy_level, defaultGuard, hcond, hdry, h3]
    · intro hge hlt
      have hn3 : ¬(risk < (0.3 : ℚ)) := by linarith
      simp [determine_autonomy_level, defaultGuard, hcond, hdry, hn3, hlt]
    · intro hge hlt
      have hn3 : ¬(risk < (0.3 : ℚ)) := by linarith
      have hn6 : ¬(risk < (0.6 : ℚ)) := by linarith
      have hns : "*" ∉ user.scopes := fun hx => hcond ⟨hx, hlt⟩
      simp [determine_autonomy_level, defaultGuard, hns, hdry, hn3, hn6, hlt]
    · intro hge
      have hn3 : ¬(risk < (0.3 : ℚ)) := by linarith
      have hn6 : ¬(risk < (0.6 : ℚ)) := by linarith
      have hn8 : ¬(risk < (0.8 : ℚ)) := by linarith
      simp [determine_autonomy_level, defaultGuard, hcond, hdry, hn3, hn6, hn8]

/-- Witness for C3: a user without the global scope, not a dry run, at
critical risk 0.9, lands in `L0_Ask`. -/
theorem determine_autonomy_level_precedence_witness :
    determine_autonomy_level defaultGuard ⟨"a", "g", false⟩ ⟨"u", []⟩ 0.9 =
      AutonomyLevel.L0_Ask :=
  ((determine_autonomy_level_precedence ⟨"a", "g", false⟩ ⟨"u", []⟩ 0.9
    (by norm_num) (by norm_num)).2.2 (Or.inl (by decide)) rfl).2.2.2
    (by norm_num)

/-- One unfolding step of the `sendLoop` recursion. -/
theorem sendLoop_succ (m b : ℕ) (rs : ℕ → HttpOutcome) (a r : ℕ) :
    sendLoop m b rs a (r + 1) =
      if isSuccessOutcome (rs a) = true then ⟨true, 1, []⟩
      else
        let rest := sendLoop m b rs (a + 1) r
        if a < m - 1 then ⟨rest.success, rest.attempts + 1, b ^ a :: rest.delays⟩
        else ⟨rest.success, rest.attempts + 1, rest.delays⟩ := rfl

/-- `sendLoop` when every remaining attempt fails: all `remaining` attempts
are performed, the result is failure, and a backoff delay follows every
attempt except the last. -/
theorem sendLoop_all_fail (m b : ℕ) (rs : ℕ → HttpOutcome) :
    ∀ (rem a : ℕ), a + rem = m →
      (∀ j, a ≤ j → j < m → isSuccessOutcome (rs j) = false) →
      sendLoop m b rs a rem = ⟨false, rem, (List.range' a (rem - 1)).map (b ^ ·)⟩ := by
  intro rem
  induction rem with
  | zero => intro a _ _; simp [sendLoop]
  | succ r ih =>
    intro a hsum hf
    have hfa : isSuccessOutcome (rs a) = false := hf a le_rfl (by omega)
    have hrest := ih (a + 1) (by omega) (fun j hj1 hj2 => hf j (by omega) hj2)
    rw [sendLoop_succ, if_neg (by simp [hfa])]
    simp only [hrest]
    cases r with
    | zero =>
      have hc : ¬(a < m - 1) := by omega
      rw [if_neg hc]
      simp
    | succ r' =>
      have hc : a < m - 1 := by omega
      rw [if_pos hc]
      simp only [SendTrace.mk.injEq]
      refine ⟨trivial, trivial, ?_⟩
      rw [show r' + 1 + 1 - 1 = (r' + 1 - 1) + 1 by omega, List.range'_succ]
      simp

/-- `sendLoop` when the first success happens at index `i`: attempts stop at
`i`, the result is success, and a backoff delay followed each of the earlier
failed attempts. -/
theorem sendLoop_first_success (m b : ℕ) (rs : ℕ → HttpOutcome) :
    ∀ (rem a i : ℕ), a + rem = m → a ≤ i → i < m →
      isSuccessOutcome (rs i) = true →
      (∀ j, a ≤ j → j < i → isSuccessOutcome (rs j) = false) →
      sendLoop m b rs a rem =
        ⟨true, i + 1 - a, (List.range' a (i - a)).map (b ^ ·)⟩ := by
  intro rem
  induction rem with
  | zero => intro a i hsum hai him _ _; exact absurd him (by omega)
  | succ r ih =>
    intro a i hsum hai him hs hf
    by_cases hia : i = a
    · subst hia
      rw [show i + 1 - i = 1 by omega, show i - i = 0 by omega]
      rw [sendLoop_succ, if_pos hs]
      simp
    · have hlt : a < i := by omega
      have hfa : isSuccessOutcome (rs a) = false := hf a le_rfl hlt
      have hc : a < m - 1 := by omega
      have hrest := ih (a + 1) i (by omega) (by omega) him hs
        (fun j h1 h2 => hf j (by omega) h2)
      rw [sendLoop_succ, if_neg (by simp [hfa])]
      simp only [hrest]
      rw [if_pos hc]
      simp only [SendTrace.mk.injEq]
      refine ⟨trivial, by omega, ?_⟩
      rw [show i - a = (i - (a + 1)) + 1 by omega, List.range'_succ]
      simp

/-- **C5.** `_send_webhook` attempts delivery up to `max_retries` times,
returning true on the first 2xx response after exactly `i + 1` attempts with
delays `backoff_base ^ 0 … backoff_base ^ (i-1)`, and false after exactly
`max_retries` failed attempts with a delay after every attempt but the last;
in particular the spec's two concrete scenarios. -/
theorem send_webhook_retry_semantics (max_retries backoff_base : ℕ)
    (responses : ℕ → HttpOutcome) :
    ((∀ j, j < max_retries → isSuccessOutcome (responses j) = false) →
      send_webhook max_retries backoff_base responses =
        ⟨false, max_retries,
          (List.range (max_retries - 1)).map (backoff_base ^ ·)⟩) ∧
    (∀ i, i < max_retries → isSuccessOutcome (responses i) = true →
      (∀ j, j < i → isSuccessOutcome (responses j) = false) →
      send_webhook max_retries backoff_base responses =
        ⟨true, i + 1, (List.range i).map (backoff_base ^ ·)⟩) ∧
    (3 ≤ max_retries →
      send_webhook max_retries 2
        (fun i => if i < 2 then HttpOutcome.response 500
         else HttpOutcome.response 200) = ⟨true, 3, [1, 2]⟩) ∧
    send_webhook 2 2 (fun _ => HttpOutcome.response 500) = ⟨false, 2, [1]⟩ := by
  refine ⟨?_, ?_, ?_, by decide⟩
  · intro hall
    rw [send_webhook,
      sendLoop_all_fail max_retries backoff_base responses max_retries 0
        (by omega) (fun j _ hj => hall j hj),
      List.range_eq_range']
  · intro i hi hs hf
    rw [send_webhook,
      sendLoop_first_success max_retries backoff_base responses max_retries 0 i
        (by omega) (by omega) hi hs (fun j _ hj => hf j hj)]
    rw [show i + 1 - 0 = i + 1 by omega, show i - 0 = i by omega,
      List.range_eq_range']
  · intro h3
    rw [send_webhook,
      sendLoop_first_success max_retries 2
        (fun i => if i < 2 then HttpOutcome.response 500
         else HttpOutcome.response 200)
        max_retries 0 2 (by omega) (by omega) (by omega) (by decide)
        (fun j _ hj => by
          have h2 : j < 2 := hj
          simp [h2, isSuccessOutcome])]
    decide

/-- Witness for C5: three all-failing attempts with base 2 produce failure
after exactly 3 attempts with delays 1s then 2s. -/
theorem send_webhook_retry_semantics_witness :
    send_webhook 3 2 (fun _ => HttpOutcome.response 500) = ⟨false, 3, [1, 2]⟩ := by
  have h := (send_webhook_retry_semantics 3 2 (fun _ => HttpOutcome.response 500)).1
    (fun j _ => rfl)
  rw [h]
  decide

/-- **C1.** Whenever some extracted required scope is unsatisfied,
`validate_request` short-circuits to the denial result — `allowed = false`,
`L0_Ask`, `risk_score = 1.0`, `requires_approval = true`, the unsatisfied
scopes listed — for every risk-assessment function (no risk assessment
affects the outcome), and the missing-scope list is non-empty. -/
theorem validate_request_denies_unsatisfied_scopes
    (assess : ExecutionPlan → User → ℚ) (g : PolicyGuard)
    (request : ActRequest) (user : User)
    (h : ∃ scope ∈ extract_required_scopes request,
      scope_matches_any scope user.scopes = false) :
    validate_request_with assess g request user =
      ⟨false, AutonomyLevel.L0_Ask, 1.0, true, extract_required_scopes request,
        (extract_required_scopes request).filter
          (fun scope => !(scope_matches_any scope user.scopes)),
        some ("Missing required scopes: " ++ String.intercalate ", "
          ((extract_required_scopes request).filter
            (fun scope => !(scope_matches_any scope user.scopes))))⟩ ∧
    (extract_required_scopes request).filter
      (fun scope => !(scope_matches_any scope user.scopes)) ≠ [] ∧
    validate_request_with assess g request user =
      validate_request g request user := by
  have hcs : check_scopes (extract_required_scopes request) user.scopes = false :=
    (check_scopes_eq_false_iff _ _).mpr h
  refine ⟨?_, ?_, ?_⟩
  · simp [validate_request_with, hcs]
  · obtain ⟨s, hs, hf⟩ := h
    exact List.ne_nil_of_mem (List.mem_filter.mpr ⟨hs, by rw [hf]; rfl⟩)
  · simp [validate_request, validate_request_with, hcs]

/-- Witness for C1: the spec's end-to-end denial scenario, a `local.read`
principal asking to create a Notion page. -/
theorem validate_request_denies_unsatisfied_scopes_witness :
    validate_request defaultGuard
      ⟨"limited_user", "Create a new Notion page with meeting notes", false⟩
      ⟨"limited_user", ["local.read"]⟩ =
      ⟨false, AutonomyLevel.L0_Ask, 1.0, true, ["notion.write"], ["notion.write"],
        some "Missing required scopes: notion.write"⟩ :=
  (validate_request_denies_unsatisfied_scopes assess_risk_score defaultGuard
    ⟨"limited_user", "Create a new Notion page with meeting notes", false⟩
    ⟨"limited_user", ["local.read"]⟩
    ⟨"notion.write", by decide, by decide⟩).1

/-- **C10.** Every `validate_request` result satisfies the three invariants:
`allowed` iff no missing scopes, `requires_approval` iff the level is
`L0_Ask` or `L1_Draft`, and the risk score lies in [0, 1]. -/
theorem validate_request_result_invariants (g : PolicyGuard)
    (request : ActRequest) (user : User) :
    ((validate_request g request user).allowed = true ↔
      (validate_request g request user).missing_scopes = []) ∧
    ((validate_request g request user).requires_approval = true ↔
      ((validate_request g request user).autonomy_level = AutonomyLevel.L0_Ask ∨
       (validate_request g request user).autonomy_level = AutonomyLevel.L1_Draft)) ∧
    0 ≤ (validate_request g request user).risk_score ∧
    (validate_request g request user).risk_score ≤ 1 := by
  cases hcs : check_scopes (extract_required_scopes request) user.scopes with
  | false =>
    obtain ⟨s, hs, hf⟩ := (check_scopes_eq_false_iff _ _).mp hcs
    have hne : (extract_required_scopes request).filter
        (fun scope => !(scope_matches_any scope user.scopes)) ≠ [] :=
      List.ne_nil_of_mem (List.mem_filter.mpr ⟨hs, by rw [hf]; rfl⟩)
    refine ⟨?_, ?_, ?_, ?_⟩
    · simp [validate_request, validate_request_with, hcs, hne]
    · simp [validate_request, validate_request_with, hcs]
    · norm_num [validate_request, validate_request_with, hcs]
    · norm_num [validate_request, validate_request_with, hcs]
  | true =>
    refine ⟨?_, ?_, ?_, ?_⟩
    · simp [validate_request, validate_request_with, hcs]
    · simp only [validate_request, validate_request_with, hcs, Bool.not_true,
        Bool.false_eq_true, if_false]
      exact requires_approval_cases _ _
    · simp only [validate_request, validate_request_with, hcs, Bool.not_true,
        Bool.false_eq_true, if_false]
      exact (assess_risk_score_bounds _ _).1
    · simp only [validate_request, validate_request_with, hcs, Bool.not_true,
        Bool.false_eq_true, if_false]
      exact (assess_risk_score_bounds _ _).2

end ChadCore
